import Mathlib

/-!
Shallow embedding of `src/app/main.py`, a FastAPI + Jinja2 service that
renders tenant rent-receipt templates in two stages (base → intermediate →
final document), with bulk generation over the twelve months of a year and
a lookup endpoint over generated documents.

Modelling choices:
* `render_template` embeds `jinja2.Template(template_str).render(**context)`:
  the template string is parsed (`parseTemplate`) into literal-text and
  variable nodes (`Node`) and rendered under the context, exactly as the
  program re-parses file text at every render.  Jinja2's default undefined
  behaviour renders an unbound `\x7b\x7b name \x7d\x7d` placeholder as the
  empty string, which `renderNode` reproduces.  The parser covers text and
  `\x7b\x7b name \x7d\x7d` variable markers, the only template constructs
  the two-stage pipeline substitutes; `\x7b%` blocks and non-name
  expressions are outside the model, and an unterminated `\x7b\x7b` is kept
  as literal text where Jinja2 would raise (no claim reaches either).
* The filesystem is an association list from resolved absolute paths to
  file contents as byte strings; `resolve` performs the `.`/`..`
  normalisation the OS applies to the path strings the code builds with
  `os.path.join`.  Rendered output is written back as the string it is,
  and is re-parsed like any other file if a later render reads it.
* Pydantic deserialization/validation (field constraints and the
  `tenant_number` validator) is modelled as an explicit validation pass
  run before each endpoint body, as FastAPI does.
* An uncaught Python exception escaping an endpoint (e.g. the `ValueError`
  raised by `datetime.date` for a year outside [1, 9999]) is modelled as
  `ApiError.uncaught`; `HTTPException(code, detail)` as `ApiError.http`;
  request-validation failures (FastAPI 422) as `ApiError.validation`.
* `amount` is a JSON number in the source; only its rendered decimal text
  ever matters here, so the field carries that text.
-/

namespace JinjaApp

instance {α β : Type} [DecidableEq α] [DecidableEq β] : DecidableEq (Except α β) := fun x y =>
  match x, y with
  | .error a, .error b =>
    if h : a = b then .isTrue (by rw [h]) else .isFalse (fun hc => h (Except.error.inj hc))
  | .ok a, .ok b =>
    if h : a = b then .isTrue (by rw [h]) else .isFalse (fun hc => h (Except.ok.inj hc))
  | .error _, .ok _ => .isFalse (fun hc => Except.noConfusion hc)
  | .ok _, .error _ => .isFalse (fun hc => Except.noConfusion hc)

/-! ## Jinja2 template model -/

/-- A parsed template node: literal text, or a `\x7b\x7b name \x7d\x7d`
variable placeholder. -/
inductive Node where
  | text (s : String)
  | var (name : String)
deriving DecidableEq

/-- A template document: the parse of a template file's text. -/
abbrev Doc := List Node

/-- The source text a node stands for. -/
def Node.flatten : Node → String
  | .text s => s
  | .var n => "\x7b\x7b " ++ n ++ " \x7d\x7d"

/-- A substitution context: placeholder names to already-stringified
values (Jinja2 stringifies values with `str`). -/
abbrev Ctx := List (String × String)

/-- Opening brace character of a `\x7b\x7b` marker. -/
def lbrace : Char := Char.ofNat 123

/-- Closing brace character of a `\x7d\x7d` marker. -/
def rbrace : Char := Char.ofNat 125

/-- Scan for the closing `\x7d\x7d` of a variable marker; returns the
characters before it and the characters after it. -/
def findClose : List Char → Option (List Char × List Char)
  | [] => none
  | c :: rest =>
    if c = rbrace ∧ rest.head? = some rbrace then some ([], rest.tail)
    else
      match findClose rest with
      | none => none
      | some (ins, rest2) => some (c :: ins, rest2)

/-- Strip the surrounding spaces of a marker's variable name, as the
Jinja2 lexer does. -/
def trimChars (cs : List Char) : List Char :=
  ((cs.dropWhile (· = ' ')).reverse.dropWhile (· = ' ')).reverse

/-- Prepend a literal character to a document, merging with a leading
text node. -/
def consLit (c : Char) : Doc → Doc
  | Node.text s :: rest => Node.text (String.mk (c :: s.data)) :: rest
  | d => Node.text (String.mk [c]) :: d

/-- Fuel-driven worker of `parseTemplate`; the fuel is an upper bound on
the number of characters, so it never runs out. -/
def parseAux : Nat → List Char → Doc
  | 0, _ => []
  | _ + 1, [] => []
  | fuel + 1, c :: rest =>
    if c = lbrace ∧ rest.head? = some lbrace then
      match findClose rest.tail with
      | none => [Node.text (String.mk (c :: rest))]
      | some (ins, rest2) => Node.var (String.mk (trimChars ins)) :: parseAux fuel rest2
    else
      consLit c (parseAux fuel rest)

/-- How `jinja2.Template(template_str)` reads a template's text: literal
text interleaved with `\x7b\x7b name \x7d\x7d` variable markers (see the
module comment for the disclosed limits of the syntax modelled). -/
def parseTemplate (s : String) : Doc :=
  parseAux (s.data.length + 1) s.data

/-- Rendering of one node under a context.  Jinja2's default `Undefined`
renders an unbound variable as the empty string. -/
def renderNode (context : Ctx) : Node → String
  | .text s => s
  | .var n => (context.lookup n).getD ""

/-- Rendering of a parsed template under a context. -/
def renderDoc (tpl : Doc) (context : Ctx) : String :=
  tpl.foldr (fun nd acc => renderNode context nd ++ acc) ""

/-- Embeds `render_template(template_str, context)` from the source:
`jinja2.Template(template_str).render(**context)` — the text is parsed
and rendered; nothing is cached between calls. -/
def render_template (template_str : String) (context : Ctx) : String :=
  renderDoc (parseTemplate template_str) context

/-- Spec-side renderer, following the claim wording that unrecognized
placeholders are left unchanged (passed through) in the output.  Stated
for comparison with `render_template`; it is NOT what Jinja2 does. -/
def render_template_passthrough (template_str : String) (context : Ctx) : String :=
  (parseTemplate template_str).foldr
    (fun nd acc =>
      (match nd with
        | .text s => s
        | .var n => (context.lookup n).getD (Node.flatten (.var n))) ++ acc)
    ""

/-- Python `repr` of a list of simple strings, which is how Jinja2 renders
a list value such as `tenant_info` (quote character written via its code
point). -/
def pyListRepr (xs : List String) : String :=
  let q := String.singleton (Char.ofNat 39)
  "[" ++ String.intercalate ", " (xs.map (fun s => q ++ s ++ q)) ++ "]"

/-! ## Filesystem model -/

def BASE_TEMPLATE_DIR : String := "/data/base"

def INTERMEDIATE_TEMPLATE_DIR : String := "/data/intermediate"

def FINAL_DOCUMENT_DIR : String := "/data/final"

/-- Whether `pre` is a prefix of `s` (structural, so it evaluates inside
the kernel; `String.startsWith` does not). -/
def strBeginsWith (pre s : String) : Bool :=
  pre.toList.isPrefixOf s.toList

/-- Embeds `os.path.join(a, b)` for the shapes the source builds: a later
absolute component discards what came before. -/
def joinPath (a b : String) : String :=
  if strBeginsWith "/" b then b else a ++ "/" ++ b

/-- Embeds `str.split(sep)` on character lists (structural version of
`String.splitOn`). -/
def splitOnChar (sep : Char) : List Char → List (List Char)
  | [] => [[]]
  | c :: rest =>
    match splitOnChar sep rest with
    | [] => [[c]]
    | g :: gs => if c = sep then [] :: g :: gs else (c :: g) :: gs

/-- Join groups of characters with a separator. -/
def intercalateChar (sep : Char) : List (List Char) → List Char
  | [] => []
  | [g] => g
  | g :: gs => g ++ sep :: intercalateChar sep gs

/-- Resolve `.` and `..` components the way the OS does when a path is
opened (a `..` at the root stays at the root). -/
def resolveComps (comps : List (List Char)) : List (List Char) :=
  comps.foldl
    (fun acc c =>
      if c = [] ∨ c = ['.'] then acc
      else if c = ['.', '.'] then acc.dropLast
      else acc ++ [c])
    []

/-- Canonical form of an absolute path string. -/
def resolve (p : String) : String :=
  String.mk ('/' :: intercalateChar '/' (resolveComps (splitOnChar '/' p.toList)))

/-- The file store: resolved absolute path ↦ file content as its byte
string.  Writes cons, reads take the first match, giving
last-writer-wins; whoever reads a file back as a template re-parses its
text, exactly as the program does. -/
abbrev FS := List (String × String)

def readFile (fs : FS) (p : String) : Option String :=
  fs.lookup (resolve p)

def isfile (fs : FS) (p : String) : Bool :=
  (readFile fs p).isSome

def writeFile (fs : FS) (p : String) (content : String) : FS :=
  (resolve p, content) :: fs

/-! ## Dates (`calendar` / `datetime` as used by the source) -/

/-- Embeds `calendar.isleap(y)`. -/
def isleap (y : Int) : Bool :=
  y % 4 == 0 && (y % 100 != 0 || y % 400 == 0)

/-- Embeds `calendar.mdays` (index 0 unused). -/
def mdays : List Int := [0, 31, 28, 31, 30, 31, 30, 31, 31, 30, 31, 30, 31]

/-- Number of days of month `m` of year `y` (meaningful for `m ∈ [1,12]`):
`calendar.mdays[m] + (m == 2 and calendar.isleap(y))`. -/
def daysInMonth (y m : Int) : Int :=
  mdays.getD m.toNat 0 + (if m == 2 && isleap y then 1 else 0)

/-- Embeds `calendar.monthrange(y, m)[1]`: raises `IllegalMonthError` for a month
outside [1, 12]. -/
def monthrange_days (y m : Int) : Except String Int :=
  if m < 1 ∨ 12 < m then .error "bad month number; must be 1-12"
  else .ok (daysInMonth y m)

/-- Zero-padded two-digit formatting, Python `f"\x7bn:02d\x7d"`. -/
def pad2 (n : Int) : String :=
  if 0 ≤ n ∧ n < 10 then "0" ++ toString n else toString n

/-- Embeds `datetime.date(y, m, d).strftime("%d/%m/%Y")`: the constructor raises
`ValueError` unless `1 ≤ y ≤ 9999` (MINYEAR/MAXYEAR), `1 ≤ m ≤ 12` and
`1 ≤ d ≤` days in the month; `%Y` prints the year unpadded (glibc). -/
def date_ddmmyyyy (y m d : Int) : Except String String :=
  if y < 1 ∨ 9999 < y then .error "year out of range"
  else if m < 1 ∨ 12 < m then .error "month must be in 1..12"
  else if d < 1 ∨ daysInMonth y m < d then .error "day is out of range for month"
  else .ok (pad2 d ++ "/" ++ pad2 m ++ "/" ++ toString y)

/-- Embeds `get_first_last_day(year, month)` from the source: first and last day
of the month as `DD/MM/YYYY` strings; any exception from `datetime.date`
or `calendar.monthrange` propagates as an error. -/
def get_first_last_day (year month : Int) : Except String (String × String) :=
  match date_ddmmyyyy year month 1 with
  | .error e => .error e
  | .ok first_day =>
    match monthrange_days year month with
    | .error e => .error e
    | .ok last_day_num =>
      match date_ddmmyyyy year month last_day_num with
      | .error e => .error e
      | .ok last_day => .ok (first_day, last_day)

/-! ## Requests, validation, errors -/

structure IntermediateTemplateRequest where
  base_template_name : String
  tenant_info : List String
  tenant_number : String
  address : List String
  amount : String
  intermediate_template_name : String
deriving DecidableEq

structure DocumentRequest where
  intermediate_template_name : String
  year : Option Int
  month : Option Int
deriving DecidableEq

structure AllDocumentsRequest where
  intermediate_template_name : String
  year : Option Int
deriving DecidableEq

/-- How a request can fail: FastAPI 422 request-validation error,
an explicit `HTTPException(status, detail)`, or an uncaught Python
exception (a 500 with no structured detail). -/
inductive ApiError where
  | validation (detail : String)
  | http (status : Int) (detail : String)
  | uncaught (detail : String)
deriving DecidableEq

/-- Python `str.isdigit` restricted to ASCII decimal digits, the only
characters relevant to the `MM/YYYY` format (empty strings are not
digit strings). -/
def pyIsdigit (cs : List Char) : Bool :=
  !cs.isEmpty && cs.all Char.isDigit

/-- Embeds `int(...)` on a string of decimal digits. -/
def digitsToNat (cs : List Char) : Nat :=
  cs.foldl (fun a c => a * 10 + (c.toNat - 48)) 0

/-- The `validate_tenant_number` pydantic validator: 7 characters with a
`/` at index 2, `v[:2]` and `v[3:]` all digits, and month in [1, 12]. -/
def validate_tenant_number (v : String) : Except String String :=
  let cs := v.toList
  if cs.length ≠ 7 ∨ cs[2]? ≠ some '/' then
    .error "Le numéro de locataire doit être au format MM/YYYY"
  else
    let month := cs.take 2
    let year := cs.drop 3
    if ¬ (pyIsdigit month && pyIsdigit year) then
      .error "Le numéro de locataire doit contenir uniquement des chiffres"
    else if ¬ (1 ≤ digitsToNat month ∧ digitsToNat month ≤ 12) then
      .error "Le mois doit être compris entre 01 et 12"
    else .ok v

/-- Pydantic validation of `IntermediateTemplateRequest`: `tenant_info`
has exactly 3 items, `address` exactly 4, and the `tenant_number`
validator passes.  Runs before the endpoint body. -/
def validateIntermediateRequest (r : IntermediateTemplateRequest) : Except ApiError Unit :=
  if r.tenant_info.length ≠ 3 then
    .error (.validation "tenant_info doit contenir exactement 3 elements")
  else if r.address.length ≠ 4 then
    .error (.validation "address doit contenir exactement 4 elements")
  else
    match validate_tenant_number r.tenant_number with
    | .error msg => .error (.validation msg)
    | .ok _ => .ok ()

/-- Pydantic validation of `DocumentRequest`: the `month` field carries
`ge=1, le=12`, enforced on any explicitly supplied value during
deserialization. -/
def validateDocumentRequest (r : DocumentRequest) : Except ApiError Unit :=
  match r.month with
  | some m =>
    if m < 1 ∨ 12 < m then
      .error (.validation "ensure this value is between 1 and 12")
    else .ok ()
  | none => .ok ()

/-! ## Endpoints -/

/-- The Jinja2 context built by `generate_intermediate_template`. -/
def intermediateContext (r : IntermediateTemplateRequest) : Ctx :=
  [("tenant_info", pyListRepr r.tenant_info),
   ("tenant_number", r.tenant_number),
   ("address", pyListRepr r.address),
   ("amount", r.amount)]

/-- Body of `POST /generate-intermediate-template`: read the base
template under the base root, render it with the tenant context, write
the result under the intermediate root, return the output file name. -/
def generate_intermediate_template (r : IntermediateTemplateRequest) (fs : FS) :
    Except ApiError (FS × String) :=
  match readFile fs (joinPath BASE_TEMPLATE_DIR r.base_template_name) with
  | none => .error (.http 404 "Template de base non trouvé")
  | some base_template_content =>
    let rendered := render_template base_template_content (intermediateContext r)
    .ok (writeFile fs (joinPath INTERMEDIATE_TEMPLATE_DIR r.intermediate_template_name)
          rendered,
         r.intermediate_template_name)

/-- The endpoint as FastAPI exposes it: pydantic validation, then body. -/
def post_generate_intermediate (r : IntermediateTemplateRequest) (fs : FS) :
    Except ApiError (FS × String) :=
  match validateIntermediateRequest r with
  | .error e => .error e
  | .ok _ => generate_intermediate_template r fs

/-- Embeds `f"\x7bname\x7d_\x7bmonth:02d\x7d_\x7byear\x7d.html"`. -/
def finalFileName (t : String) (y m : Int) : String :=
  t ++ "_" ++ pad2 m ++ "_" ++ toString y ++ ".html"

/-- Embeds `os.path.join(FINAL_DOCUMENT_DIR, name, str(year), filename)` as built
(identically) by `generate_document` and `get_document_info`. -/
def finalDocumentPath (t : String) (y m : Int) : String :=
  joinPath (joinPath (joinPath FINAL_DOCUMENT_DIR t) (toString y)) (finalFileName t y m)

/-- Body of `POST /generate-document`: default year/month from the
injected current date, in-body month range check, date computation,
template read, render, write under `final/<name>/<year>/`. -/
def generate_document (nowY nowM : Int) (r : DocumentRequest) (fs : FS) :
    Except ApiError (FS × String × String) :=
  let year := r.year.getD nowY
  let month := r.month.getD nowM
  if month < 1 ∨ 12 < month then
    .error (.http 400 "Le mois doit être compris entre 1 et 12")
  else
    match get_first_last_day year month with
    | .error msg => .error (.uncaught msg)
    | .ok (first_day, last_day) =>
      match readFile fs (joinPath INTERMEDIATE_TEMPLATE_DIR r.intermediate_template_name) with
      | none => .error (.http 404 "Template intermédiaire non trouvé")
      | some intermediate_template_content =>
        let context : Ctx :=
          [("first_day", first_day), ("last_day", last_day),
           ("year", toString year), ("month", pad2 month)]
        let content := render_template intermediate_template_content context
        .ok (writeFile fs (finalDocumentPath r.intermediate_template_name year month)
              content,
             finalFileName r.intermediate_template_name year month,
             finalDocumentPath r.intermediate_template_name year month)

/-- The endpoint as FastAPI exposes it: pydantic validation, then body. -/
def post_generate_document (nowY nowM : Int) (r : DocumentRequest) (fs : FS) :
    Except ApiError (FS × String × String) :=
  match validateDocumentRequest r with
  | .error e => .error e
  | .ok _ => generate_document nowY nowM r fs

/-- Endpoint `GET /document-info`: query validation (`month` has `ge=1, le=12`),
then deterministic path recomputation and an existence check; no content
validation. -/
def get_document_info (t : String) (y m : Int) (fs : FS) :
    Except ApiError (String × String) :=
  if m < 1 ∨ 12 < m then .error (.validation "ensure this value is between 1 and 12")
  else if isfile fs (finalDocumentPath t y m) then
    .ok (finalFileName t y m, finalDocumentPath t y m)
  else .error (.http 404 "Document non généré")

/-- Embeds `range(1, 13)`. -/
def monthsList : List Int := [1, 2, 3, 4, 5, 6, 7, 8, 9, 10, 11, 12]

/-- The loop of `generate_all_documents`: for each month construct a
`DocumentRequest` (pydantic-validated) and call `generate_document`,
accumulating file names; an exception stops the loop, leaving the
filesystem as it was at the failure. -/
def genAllFrom (nowY nowM : Int) (name : String) (year : Int) :
    List Int → FS → FS × Except ApiError (List String)
  | [], fs => (fs, .ok [])
  | m :: rest, fs =>
    match post_generate_document nowY nowM ⟨name, some year, some m⟩ fs with
    | .error e => (fs, .error e)
    | .ok (fs1, fn, _) =>
      match genAllFrom nowY nowM name year rest fs1 with
      | (fs2, .error e) => (fs2, .error e)
      | (fs2, .ok fns) => (fs2, .ok (fn :: fns))

/-- Endpoint `POST /generate-all-documents`: months 1..12 in ascending order. -/
def generate_all_documents (nowY nowM : Int) (r : AllDocumentsRequest) (fs : FS) :
    FS × Except ApiError (List String) :=
  genAllFrom nowY nowM r.intermediate_template_name (r.year.getD nowY) monthsList fs

/-! ## Spec-side auxiliary definitions -/

/-- Substring test on character lists (for statements about placeholder
markers surviving in rendered output). -/
def containsSub (needle : List Char) : List Char → Bool
  | [] => needle.isEmpty
  | c :: rest => needle.isPrefixOf (c :: rest) || containsSub needle rest

/-- The acceptance predicate exactly as the claim words it: 7 characters,
`/` at index 2, decimal digits at indices 0, 1, 4, 5, 6, and parsed month
in [1, 12].  (Note it does not mention index 3.) -/
def tenant_number_claim_accept (v : String) : Bool :=
  let cs := v.toList
  cs.length == 7 && cs[2]? == some '/' &&
  ([0, 1, 4, 5, 6].all fun i => ((cs[i]?).map Char.isDigit).getD false) &&
  (1 ≤ digitsToNat (cs.take 2) && digitsToNat (cs.take 2) ≤ 12)

/-- A valid Gregorian day-of-month, stated constraint-style and
independently of the `mdays` table: at least 1, at most 31, at most 30 in
April, June, September, November, and in February at most 29 in a leap
year and 28 otherwise. -/
def validDay (y m d : Int) : Prop :=
  1 ≤ d ∧ d ≤ 31 ∧
  ((m = 4 ∨ m = 6 ∨ m = 9 ∨ m = 11) → d ≤ 30) ∧
  (m = 2 → d ≤ (if isleap y then 29 else 28))

/-- Drop the placeholders a context does not bind. -/
def dropUnbound (context : Ctx) (d : Doc) : Doc :=
  d.filter fun nd =>
    match nd with
    | .text _ => true
    | .var n => (context.lookup n).isSome

/-! ## Helper lemmas -/

theorem lookup_cons_self {β : Type} (a : String) (b : β) (l : List (String × β)) :
    List.lookup a ((a, b) :: l) = some b := by
  simp [List.lookup]

theorem lookup_cons_of_ne {β : Type} (a a2 : String) (b : β) (l : List (String × β))
    (h : ¬ a = a2) : List.lookup a ((a2, b) :: l) = List.lookup a l := by
  have hb : (a == a2) = false := by simp [h]
  simp [List.lookup, hb]

theorem daysInMonth_pos (y m : Int) (hm : 1 ≤ m ∧ m ≤ 12) : 1 ≤ daysInMonth y m := by
  obtain ⟨h1, h2⟩ := hm
  interval_cases m <;> cases h : isleap y <;> simp [daysInMonth, mdays, h]

theorem get_first_last_day_ok (y m : Int) (hy : 1 ≤ y ∧ y ≤ 9999) (hm : 1 ≤ m ∧ m ≤ 12) :
    get_first_last_day y m =
      .ok (pad2 1 ++ "/" ++ pad2 m ++ "/" ++ toString y,
           pad2 (daysInMonth y m) ++ "/" ++ pad2 m ++ "/" ++ toString y) := by
  have hd := daysInMonth_pos y m hm
  have h1 : ¬ (y < 1 ∨ 9999 < y) := by omega
  have h2 : ¬ (m < 1 ∨ 12 < m) := by omega
  have h3 : ¬ ((1 : Int) < 1 ∨ daysInMonth y m < 1) := by omega
  have h4 : ¬ (daysInMonth y m < 1 ∨ daysInMonth y m < daysInMonth y m) := by omega
  unfold get_first_last_day date_ddmmyyyy monthrange_days
  simp only [if_neg h1, if_neg h2, if_neg h3, if_neg h4]

theorem render_dropUnbound (context : Ctx) (d : Doc) :
    renderDoc d context = renderDoc (dropUnbound context d) context := by
  induction d with
  | nil => rfl
  | cons nd rest ih =>
    cases nd with
    | text s =>
      show s ++ renderDoc rest context
        = renderDoc (dropUnbound context (Node.text s :: rest)) context
      rw [ih]; rfl
    | var n =>
      cases hn : (context.lookup n) with
      | some v =>
        show (context.lookup n).getD "" ++ renderDoc rest context
          = renderDoc (dropUnbound context (Node.var n :: rest)) context
        have : dropUnbound context (Node.var n :: rest)
            = Node.var n :: dropUnbound context rest := by
          simp [dropUnbound, List.filter, hn]
        rw [this]
        show (context.lookup n).getD "" ++ renderDoc rest context
          = (context.lookup n).getD "" ++ renderDoc (dropUnbound context rest) context
        rw [ih]
      | none =>
        show (context.lookup n).getD "" ++ renderDoc rest context
          = renderDoc (dropUnbound context (Node.var n :: rest)) context
        have hdrop : dropUnbound context (Node.var n :: rest) = dropUnbound context rest := by
          simp [dropUnbound, List.filter, hn]
        rw [hdrop, hn, ← ih]
        show "" ++ renderDoc rest context = renderDoc rest context
        rfl

theorem post_generate_document_ok_shape (nowY nowM : Int) (r : DocumentRequest)
    (fs fs2 : FS) (fn p : String)
    (h : post_generate_document nowY nowM r fs = .ok (fs2, fn, p)) :
    fn = finalFileName r.intermediate_template_name (r.year.getD nowY) (r.month.getD nowM)
    ∧ p = finalDocumentPath r.intermediate_template_name (r.year.getD nowY) (r.month.getD nowM)
    ∧ ∃ c, fs2 = writeFile fs
        (finalDocumentPath r.intermediate_template_name (r.year.getD nowY) (r.month.getD nowM))
        c := by
  simp only [post_generate_document, generate_document] at h
  split at h
  · exact absurd h (by simp)
  · split at h
    · exact absurd h (by simp)
    · split at h
      · exact absurd h (by simp)
      · split at h
        · exact absurd h (by simp)
        · simp only [Except.ok.injEq, Prod.mk.injEq] at h
          exact ⟨h.2.1.symm, h.2.2.symm, _, h.1.symm⟩

/-! ## Concrete fixtures for counterexamples and witnesses -/

/-- A base template whose date placeholders are meant to survive the
first rendering stage. -/
def cexBaseStr : String :=
  "Du \x7b\x7b first_day \x7d\x7d au \x7b\x7b last_day \x7d\x7d"

def cexRequest : IntermediateTemplateRequest :=
  ⟨"base.html", ["a", "b", "c"], "03/2024", ["r1", "r2", "r3", "r4"], "450.0", "inter.html"⟩

def cexFS : FS := [("/data/base/base.html", cexBaseStr)]

/-- A filesystem holding an intermediate template named `t`. -/
def fsWithT : FS := [("/data/intermediate/t", "corps \x7b\x7b month \x7d\x7d")]

/-- Claim C1 counterexample: rendering a base template that contains the
`first_day` and `last_day` markers with only the tenant context does NOT
leave the markers in the output — Jinja2 renders the unbound placeholders
as empty strings, so the written intermediate template is `"Du  au "`,
which no longer even mentions `first_day`, and the pass-through renderer
the claim describes disagrees with the code on this input. -/
theorem C1_counterexample :
    post_generate_intermediate cexRequest cexFS =
      .ok (("/data/intermediate/inter.html", "Du  au ") :: cexFS, "inter.html")
    ∧ containsSub "first_day".toList "Du  au ".toList = false
    ∧ render_template cexBaseStr (intermediateContext cexRequest)
        ≠ render_template_passthrough cexBaseStr (intermediateContext cexRequest) := by
  refine ⟨by decide, by decide, by decide⟩

/-- Claim C1 as amended: rendering replaces placeholders whose names are
not bound in the context with the empty string (Jinja2's default
undefined behaviour) rather than failing; `generate_intermediate` writes
the base template rendered under the tenant context, in which every
unbound placeholder (in particular `first_day`, `last_day`, `year`,
`month`) contributes nothing — the output equals the rendering of the
template with its unbound placeholders dropped. -/
theorem C1_unbound_placeholders_rendered_empty (r : IntermediateTemplateRequest)
    (fs : FS) (tpl : String)
    (hval : validateIntermediateRequest r = .ok ())
    (hbase : readFile fs (joinPath BASE_TEMPLATE_DIR r.base_template_name) = some tpl) :
    post_generate_intermediate r fs =
      .ok (writeFile fs (joinPath INTERMEDIATE_TEMPLATE_DIR r.intermediate_template_name)
            (render_template tpl (intermediateContext r)),
           r.intermediate_template_name)
    ∧ render_template tpl (intermediateContext r)
        = renderDoc (dropUnbound (intermediateContext r) (parseTemplate tpl))
            (intermediateContext r)
    ∧ ∀ n, (intermediateContext r).lookup n = none →
        renderNode (intermediateContext r) (.var n) = "" := by
  refine ⟨?_, render_dropUnbound _ _, fun n h => by simp [renderNode, h]⟩
  simp [post_generate_intermediate, hval, generate_intermediate_template, hbase]

/-- Closed witness for C1: the amended theorem applied to the concrete
fixture request, with every hypothesis discharged by evaluation. -/
theorem C1_witness :
    post_generate_intermediate cexRequest cexFS =
      .ok (writeFile cexFS (joinPath INTERMEDIATE_TEMPLATE_DIR "inter.html")
            (render_template cexBaseStr (intermediateContext cexRequest)),
           "inter.html") :=
  (C1_unbound_placeholders_rendered_empty cexRequest cexFS cexBaseStr
    (by decide) (by decide)).1

/-- Claim C2 counterexample: the string `"12/x234"` satisfies every clause
the claim lists (7 characters, `/` at index 2, digits at indices 0, 1, 4,
5, 6, month 12 in range) yet the validator rejects it, because the code
also requires the character at index 3 to be a digit (`v[3:]` must be all
digits). -/
theorem C2_counterexample :
    tenant_number_claim_accept "12/x234" = true
    ∧ (validate_tenant_number "12/x234").isOk = false := by
  refine ⟨by decide, by decide⟩

/-- Claim C2 as amended: the validator accepts exactly the strings with 7
characters, `/` at index 2, decimal digits at indices 0, 1, 3, 4, 5 and 6
(the claim omitted index 3), and parsed month in [1, 12]; and whenever
the validator rejects, the generate-intermediate endpoint fails with a
ValidationError without touching the filesystem (the conclusion holds for
every `fs`). -/
theorem C2_tenant_number_validation (v : String) (r : IntermediateTemplateRequest) (fs : FS)
    (hr : r.tenant_number = v) :
    ((validate_tenant_number v).isOk = true ↔
      (v.toList.length = 7 ∧ v.toList[2]? = some '/' ∧
       (∀ i ∈ ([0, 1, 3, 4, 5, 6] : List Nat),
          ((v.toList[i]?).map Char.isDigit).getD false = true) ∧
       1 ≤ digitsToNat (v.toList.take 2) ∧ digitsToNat (v.toList.take 2) ≤ 12))
    ∧ ((validate_tenant_number v).isOk = false →
        ∃ msg, post_generate_intermediate r fs = .error (.validation msg)) := by
  constructor
  · obtain ⟨cs⟩ := v
    rcases cs with _ | ⟨a, _ | ⟨b, _ | ⟨c, _ | ⟨d, _ | ⟨e, _ | ⟨f, _ | ⟨g, _ | ⟨h8, t⟩⟩⟩⟩⟩⟩⟩⟩ <;>
      simp [validate_tenant_number, pyIsdigit, String.toList, String.length,
            Except.isOk, Except.toBool]
    split_ifs with h1 h2 h3 <;> simp_all
  · intro hbad
    have hv : ∃ msg, validateIntermediateRequest r = .error (.validation msg) := by
      unfold validateIntermediateRequest
      split_ifs with h1 h2
      · exact ⟨_, rfl⟩
      · exact ⟨_, rfl⟩
      · rw [hr]
        cases hval : validate_tenant_number v with
        | error msg => exact ⟨msg, rfl⟩
        | ok _ => rw [hval] at hbad; simp [Except.isOk, Except.toBool] at hbad
    obtain ⟨msg, hmsg⟩ := hv
    exact ⟨msg, by simp [post_generate_intermediate, hmsg]⟩

/-- Closed witness for C2: the amended characterization applied to
`"03/2024"` (accepted) and, through the endpoint, to a request whose
tenant number `"00/2024"` has month 0 (rejected with a ValidationError
regardless of the filesystem contents). -/
theorem C2_witness :
    (validate_tenant_number "03/2024").isOk = true
    ∧ ∃ msg,
        post_generate_intermediate
          ⟨"base.html", ["a", "b", "c"], "00/2024", ["r1", "r2", "r3", "r4"],
           "450.0", "inter.html"⟩ cexFS
          = .error (.validation msg) := by
  constructor
  · exact (C2_tenant_number_validation "03/2024" cexRequest cexFS rfl).1.mpr (by decide)
  · exact (C2_tenant_number_validation "00/2024"
      ⟨"base.html", ["a", "b", "c"], "00/2024", ["r1", "r2", "r3", "r4"],
       "450.0", "inter.html"⟩ cexFS rfl).2 (by decide)

/-- Claim C3 counterexample: an explicit `month = 0` is rejected during
pydantic deserialization by the `ge=1, le=12` field constraint (a 422
validation error), not by the in-body check the claim describes (a 400
`HTTPException`), even though the intermediate template exists. -/
theorem C3_counterexample :
    post_generate_document 2025 6 ⟨"t", some 2025, some 0⟩ fsWithT
      = .error (.validation "ensure this value is between 1 and 12")
    ∧ post_generate_document 2025 6 ⟨"t", some 2025, some 0⟩ fsWithT
      ≠ .error (.http 400 "Le mois doit être compris entre 1 et 12") := by
  refine ⟨by decide, by decide⟩

/-- Claim C3 as amended: an explicitly supplied month outside [1, 12] is
rejected during request deserialization by the pydantic field constraint
`ge=1, le=12` and surfaced as a 422 validation error, before any file
access (the conclusion holds for every filesystem); the in-body 400
check on line 145 is unreachable for explicitly supplied months. -/
theorem C3_month_rejected_at_deserialization (nowY nowM : Int) (r : DocumentRequest)
    (fs : FS) (m : Int) (hm : r.month = some m) (hout : m < 1 ∨ 12 < m) :
    post_generate_document nowY nowM r fs =
      .error (.validation "ensure this value is between 1 and 12") := by
  simp [post_generate_document, validateDocumentRequest, hm, if_pos hout]

/-- Closed witness for C3: the amended theorem applied to month 13 with a
filesystem that does hold the intermediate template. -/
theorem C3_witness :
    post_generate_document 2025 6 ⟨"t", some 2025, some 13⟩ fsWithT =
      .error (.validation "ensure this value is between 1 and 12") :=
  C3_month_rejected_at_deserialization 2025 6 ⟨"t", some 2025, some 13⟩ fsWithT 13
    rfl (by decide)

/-- Claim C4 counterexample: with `year = 0`, a valid month and the
intermediate template present and readable, `generate_document` fails:
`datetime.date(0, 1, 1)` raises `ValueError` (year before MINYEAR), which
escapes the endpoint as an uncaught exception.  The year is therefore not
unrestricted. -/
theorem C4_counterexample :
    post_generate_document 2025 6 ⟨"t", some 0, some 1⟩ fsWithT
      = .error (.uncaught "year out of range") := by
  decide

/-- Claim C4 as amended: the year is not validated anywhere, but it is
not unrestricted either — `datetime.date` constrains it to
[1, 9999] (MINYEAR..MAXYEAR).  Within that range, for any month in
[1, 12] and an existing readable intermediate template, generation
always succeeds; outside it, the date computation raises (see the
counterexample). -/
theorem C4_year_in_pydate_range_succeeds (nowY nowM y m : Int) (t : String)
    (fs : FS) (tpl : String)
    (hy : 1 ≤ y ∧ y ≤ 9999) (hm : 1 ≤ m ∧ m ≤ 12)
    (hfile : readFile fs (joinPath INTERMEDIATE_TEMPLATE_DIR t) = some tpl) :
    post_generate_document nowY nowM ⟨t, some y, some m⟩ fs =
      .ok (writeFile fs (finalDocumentPath t y m)
             (render_template tpl
               [("first_day", pad2 1 ++ "/" ++ pad2 m ++ "/" ++ toString y),
                ("last_day", pad2 (daysInMonth y m) ++ "/" ++ pad2 m ++ "/" ++ toString y),
                ("year", toString y), ("month", pad2 m)]),
           finalFileName t y m, finalDocumentPath t y m) := by
  have h2 : ¬ (m < 1 ∨ 12 < m) := by omega
  have hg := get_first_last_day_ok y m hy hm
  simp [post_generate_document, validateDocumentRequest, generate_document, h2, hg, hfile]

/-- Closed witness for C4: the amended theorem applied at year 2024,
month 2, with the fixture filesystem. -/
theorem C4_witness :
    post_generate_document 2025 6 ⟨"t", some 2024, some 2⟩ fsWithT =
      .ok (writeFile fsWithT (finalDocumentPath "t" 2024 2)
             (render_template "corps \x7b\x7b month \x7d\x7d"
               [("first_day", pad2 1 ++ "/" ++ pad2 2 ++ "/" ++ toString (2024 : Int)),
                ("last_day", pad2 (daysInMonth 2024 2) ++ "/" ++ pad2 2 ++ "/"
                   ++ toString (2024 : Int)),
                ("year", toString (2024 : Int)), ("month", pad2 2)]),
           finalFileName "t" 2024 2, finalDocumentPath "t" 2024 2) :=
  C4_year_in_pydate_range_succeeds 2025 6 2024 2 "t" fsWithT
    "corps \x7b\x7b month \x7d\x7d" (by decide) (by decide) (by decide)

/-- Claim C5 counterexample: at `year = 10000` (past `datetime.MAXYEAR`)
`get_first_last_day` raises instead of returning the formatted pair the
claim promises for every year. -/
theorem C5_counterexample :
    get_first_last_day 10000 2 = .error "year out of range"
    ∧ get_first_last_day 10000 2 ≠ .ok ("01/02/10000", "29/02/10000") := by
  refine ⟨by decide, by decide⟩

/-- Claim C5 as amended: for every year in [1, 9999] (the `datetime`
range — the original claim said every year) and month in [1, 12],
`get_first_last_day` returns the pair (first day, last day) of the month
formatted `DD/MM/YYYY`: the first day is day 01, and the last day number
is exactly the boundary of Gregorian validity — it is a valid day of the
month and its successor is not, which accounts for the 31/30-day months
and the February leap-year rule. -/
theorem C5_first_last_day (y m : Int) (hy : 1 ≤ y ∧ y ≤ 9999) (hm : 1 ≤ m ∧ m ≤ 12) :
    get_first_last_day y m =
      .ok (pad2 1 ++ "/" ++ pad2 m ++ "/" ++ toString y,
           pad2 (daysInMonth y m) ++ "/" ++ pad2 m ++ "/" ++ toString y)
    ∧ validDay y m (daysInMonth y m) ∧ ¬ validDay y m (daysInMonth y m + 1) := by
  refine ⟨get_first_last_day_ok y m hy hm, ?_, ?_⟩
  · obtain ⟨h1, h2⟩ := hm
    interval_cases m <;> cases h : isleap y <;>
      simp [validDay, daysInMonth, mdays, h]
  · obtain ⟨h1, h2⟩ := hm
    interval_cases m <;> cases h : isleap y <;>
      simp [validDay, daysInMonth, mdays, h]

/-- Closed witness for C5: the amended theorem instantiated at the two
examples named by the claim — February 2024 (leap) and February 2023. -/
theorem C5_witness :
    get_first_last_day 2024 2 = .ok ("01/02/2024", "29/02/2024")
    ∧ get_first_last_day 2023 2 = .ok ("01/02/2023", "28/02/2023") := by
  constructor
  · exact ((C5_first_last_day 2024 2 (by decide) (by decide)).1).trans (by decide)
  · exact ((C5_first_last_day 2023 2 (by decide) (by decide)).1).trans (by decide)

/-- Claim C10: template names are spliced into paths with no containment
check.  With `base_template_name = "../outside.txt"` the file read by
`generate_intermediate_template` resolves to `/data/outside.txt`, outside
the base root, and with `intermediate_template_name = "../escaped"` the
rendered output is written to `/data/escaped`, outside the intermediate
root; the request succeeds end to end. -/
theorem C10_path_traversal :
    strBeginsWith (BASE_TEMPLATE_DIR ++ "/")
        (resolve (joinPath BASE_TEMPLATE_DIR "../outside.txt")) = false
    ∧ strBeginsWith (INTERMEDIATE_TEMPLATE_DIR ++ "/")
        (resolve (joinPath INTERMEDIATE_TEMPLATE_DIR "../escaped")) = false
    ∧ post_generate_intermediate
        ⟨"../outside.txt", ["a", "b", "c"], "03/2024", ["r1", "r2", "r3", "r4"],
         "450.0", "../escaped"⟩
        [("/data/outside.txt", "X")]
      = .ok ([("/data/escaped", "X"), ("/data/outside.txt", "X")],
             "../escaped") := by
  refine ⟨by decide, by decide, by decide⟩

/-- Claim C6: `get_document_info` recomputes the final path
deterministically and succeeds exactly when a file exists there; after a
successful `generate_document` for the same (template, year, month) it
returns exactly the file name and path that `generate_document` returned;
and with no file at the recomputed path it fails with 404. -/
theorem C6_document_info_roundtrip (nowY nowM y m : Int) (t fn p : String) (fs fs2 : FS)
    (hm : 1 ≤ m ∧ m ≤ 12) :
    ((get_document_info t y m fs).isOk = true ↔ isfile fs (finalDocumentPath t y m) = true)
    ∧ (post_generate_document nowY nowM ⟨t, some y, some m⟩ fs = .ok (fs2, fn, p) →
        get_document_info t y m fs2 = .ok (fn, p))
    ∧ (isfile fs (finalDocumentPath t y m) = false →
        get_document_info t y m fs = .error (.http 404 "Document non généré")) := by
  have hmn : ¬ (m < 1 ∨ 12 < m) := by omega
  refine ⟨?_, ?_, ?_⟩
  · unfold get_document_info
    rw [if_neg hmn]
    cases hf : isfile fs (finalDocumentPath t y m) <;>
      simp [hf, Except.isOk, Except.toBool]
  · intro h
    obtain ⟨hfn, hp, c, hfs⟩ := post_generate_document_ok_shape nowY nowM _ fs fs2 fn p h
    subst hfn hp hfs
    unfold get_document_info
    rw [if_neg hmn]
    have hw : isfile (writeFile fs (finalDocumentPath t y m) c)
        (finalDocumentPath t y m) = true := by
      simp [isfile, readFile, writeFile, Option.getD, lookup_cons_self]
    simp [hw, Option.getD]
  · intro hnf
    unfold get_document_info
    rw [if_neg hmn]
    simp [hnf]

/-- Closed witness for C6: generating March 2025 from the fixture
filesystem and looking the document up returns the same name and path. -/
theorem C6_witness :
    get_document_info "t" 2025 3
        (writeFile fsWithT (finalDocumentPath "t" 2025 3) "corps 03")
      = .ok ("t_03_2025.html", "/data/final/t/2025/t_03_2025.html") :=
  (C6_document_info_roundtrip 2025 6 2025 3 "t" "t_03_2025.html"
      "/data/final/t/2025/t_03_2025.html" fsWithT
      (writeFile fsWithT (finalDocumentPath "t" 2025 3) "corps 03")
      (by decide)).2.1 (by decide)

theorem genAllFrom_ok_names (nowY nowM year : Int) (name : String) :
    ∀ (months : List Int) (fs fs2 : FS) (files : List String),
      genAllFrom nowY nowM name year months fs = (fs2, .ok files) →
      files = months.map (fun m => finalFileName name year m) := by
  intro months
  induction months with
  | nil =>
    intro fs fs2 files h
    simp only [genAllFrom, Prod.mk.injEq, Except.ok.injEq] at h
    simp [h.2.symm]
  | cons m rest ih =>
    intro fs fs2 files h
    rw [genAllFrom] at h
    split at h
    · simp at h
    · rename_i fs1 fn rest3 heq
      split at h
      · simp at h
      · rename_i fs3 fns heq2
        simp only [Prod.mk.injEq, Except.ok.injEq] at h
        obtain ⟨hfn, -, -⟩ := post_generate_document_ok_shape nowY nowM _ fs fs1 fn rest3 heq
        rw [← h.2, List.map_cons, hfn]
        exact congrArg _ (ih fs1 fs3 fns heq2)

/-- Claim C7: on success, `generate_all_documents` returns the ordered
list of exactly 12 file names `name_01_year.html` … `name_12_year.html`,
one per month 1..12 in ascending order (the loop runs the months in that
order and accumulates the name each call returns). -/
theorem C7_bulk_generates_twelve_names (nowY nowM year : Int) (name : String)
    (fs : FS) (files : List String)
    (h : (generate_all_documents nowY nowM ⟨name, some year⟩ fs).2 = .ok files) :
    files = monthsList.map (fun m => finalFileName name year m)
    ∧ files.length = 12 := by
  rcases hg : generate_all_documents nowY nowM ⟨name, some year⟩ fs with ⟨fs2, res⟩
  rw [hg] at h
  simp only at h
  subst h
  have hgen : genAllFrom nowY nowM name year monthsList fs = (fs2, .ok files) := by
    rw [← hg]; rfl
  have := genAllFrom_ok_names nowY nowM year name monthsList fs fs2 files hgen
  exact ⟨this, by rw [this]; rfl⟩

/-- Closed witness for C7: a successful bulk run over the fixture
filesystem, whose 12 returned names match the claimed pattern. -/
theorem C7_witness :
    (["t_01_2025.html", "t_02_2025.html", "t_03_2025.html", "t_04_2025.html",
      "t_05_2025.html", "t_06_2025.html", "t_07_2025.html", "t_08_2025.html",
      "t_09_2025.html", "t_10_2025.html", "t_11_2025.html", "t_12_2025.html"]
        : List String)
      = monthsList.map (fun m => finalFileName "t" 2025 m)
    ∧ (["t_01_2025.html", "t_02_2025.html", "t_03_2025.html", "t_04_2025.html",
        "t_05_2025.html", "t_06_2025.html", "t_07_2025.html", "t_08_2025.html",
        "t_09_2025.html", "t_10_2025.html", "t_11_2025.html", "t_12_2025.html"]
          : List String).length = 12 :=
  C7_bulk_generates_twelve_names 2025 6 2025 "t" fsWithT
    ["t_01_2025.html", "t_02_2025.html", "t_03_2025.html", "t_04_2025.html",
     "t_05_2025.html", "t_06_2025.html", "t_07_2025.html", "t_08_2025.html",
     "t_09_2025.html", "t_10_2025.html", "t_11_2025.html", "t_12_2025.html"]
    (by decide)

/-- Claim C8: if during the bulk loop the generation for some month `mf`
fails after the months in `done` succeeded, then the whole run returns
exactly that first error, the months after `mf` are never attempted
(the result does not depend on `rest`), and the filesystem is returned
exactly as it was at the moment of failure — every document written for
the earlier months is still in it, unchanged (no rollback). -/
theorem C8_fail_fast_no_rollback (nowY nowM year : Int) (name : String)
    (done rest : List Int) (mf : Int) (fs fsk : FS) (files : List String) (e : ApiError)
    (hdone : genAllFrom nowY nowM name year done fs = (fsk, .ok files))
    (hfail : post_generate_document nowY nowM ⟨name, some year, some mf⟩ fsk = .error e) :
    genAllFrom nowY nowM name year (done ++ mf :: rest) fs = (fsk, .error e) := by
  induction done generalizing fs files with
  | nil =>
    simp only [genAllFrom, Prod.mk.injEq, Except.ok.injEq] at hdone
    rw [List.nil_append, genAllFrom, hdone.1, hfail]
  | cons m ms ih =>
    rw [genAllFrom] at hdone
    rw [List.cons_append, genAllFrom]
    split at hdone
    · simp at hdone
    · rename_i fs1 fn rest3 heq
      split at hdone
      · simp at hdone
      · rename_i fs3 fns heq2
        simp only [Prod.mk.injEq, Except.ok.injEq] at hdone
        rw [ih fs1 fns (by rw [heq2, hdone.1])]

/-- Closed witness for C8: with no intermediate template on disk the
first month already fails, so the bulk run over months 1..12 returns that
404 immediately and the (empty) filesystem is unchanged. -/
theorem C8_witness :
    genAllFrom 2025 6 "t" 2025
        ([] ++ 1 :: [2, 3, 4, 5, 6, 7, 8, 9, 10, 11, 12]) [] =
      ([], .error (.http 404 "Template intermédiaire non trouvé")) :=
  C8_fail_fast_no_rollback 2025 6 2025 "t" [] [2, 3, 4, 5, 6, 7, 8, 9, 10, 11, 12]
    1 [] [] [] (.http 404 "Template intermédiaire non trouvé") rfl (by decide)

/-- Fixtures for the C9 counterexample: the intermediate name
`../base/b` makes the output path resolve onto the base template
`/data/base/b` itself, and the first `tenant_info` line injects an
`\x7b\x7b amount \x7d\x7d` marker into the rendered output. -/
def aliasRequest : IntermediateTemplateRequest :=
  ⟨"b", ["\x7b\x7b amount \x7d\x7d", "b", "c"], "03/2024", ["r1", "r2", "r3", "r4"],
   "450.0", "../base/b"⟩

def aliasFS : FS := [("/data/base/b", "\x7b\x7b tenant_info \x7d\x7d")]

/-- First run output: the `tenant_info` repr, still containing the
injected marker as text. -/
def aliasOut1 : String :=
  render_template "\x7b\x7b tenant_info \x7d\x7d" (intermediateContext aliasRequest)

def aliasFS1 : FS :=
  writeFile aliasFS (joinPath INTERMEDIATE_TEMPLATE_DIR "../base/b") aliasOut1

/-- Second run output: re-parsing the overwritten base file substitutes
the injected marker, so the bytes change. -/
def aliasOut2 : String :=
  render_template aliasOut1 (intermediateContext aliasRequest)

def aliasFS2 : FS :=
  writeFile aliasFS1 (joinPath INTERMEDIATE_TEMPLATE_DIR "../base/b") aliasOut2

/-- Claim C9 counterexample: `generate_intermediate` is NOT idempotent
for every argument value.  With `intermediate_template_name = "../base/b"`
the first run overwrites the base template it read, and because a
`tenant_info` value injects an `\x7b\x7b amount \x7d\x7d` marker, the
second run — which re-parses the overwritten file text, as
`jinja2.Template` does on every render — substitutes that marker and
writes different bytes: both runs succeed with the same file name, but
the second written content differs from the first. -/
theorem C9_counterexample :
    post_generate_intermediate aliasRequest aliasFS = .ok (aliasFS1, "../base/b")
    ∧ post_generate_intermediate aliasRequest aliasFS1 = .ok (aliasFS2, "../base/b")
    ∧ aliasOut2 ≠ aliasOut1
    ∧ readFile aliasFS2 (joinPath INTERMEDIATE_TEMPLATE_DIR "../base/b")
        ≠ readFile aliasFS1 (joinPath INTERMEDIATE_TEMPLATE_DIR "../base/b") := by
  refine ⟨by decide, by decide, by decide, by decide⟩

/-- Claim C9 as amended: `generate_intermediate` is idempotent under
identical inputs provided the intermediate output path does not resolve
onto the base template being read (so the write does not overwrite its
own input; the counterexample shows idempotence fails otherwise).  Then a
second run with the same request succeeds, returns the same file name,
and leaves the intermediate file with content byte-identical to the first
run's output — rendering is a pure function of the (unchanged) base text
and the request context. -/
theorem C9_generate_intermediate_idempotent (r : IntermediateTemplateRequest)
    (fs fs1 : FS) (f1 : String)
    (hne : resolve (joinPath BASE_TEMPLATE_DIR r.base_template_name)
         ≠ resolve (joinPath INTERMEDIATE_TEMPLATE_DIR r.intermediate_template_name))
    (h1 : post_generate_intermediate r fs = .ok (fs1, f1)) :
    ∃ fs2, post_generate_intermediate r fs1 = .ok (fs2, f1) ∧
      readFile fs2 (joinPath INTERMEDIATE_TEMPLATE_DIR r.intermediate_template_name)
        = readFile fs1 (joinPath INTERMEDIATE_TEMPLATE_DIR r.intermediate_template_name) := by
  simp only [post_generate_intermediate, generate_intermediate_template] at h1
  split at h1
  · simp at h1
  · rename_i u hval
    split at h1
    · simp at h1
    · rename_i tpl hread
      simp only [Except.ok.injEq, Prod.mk.injEq] at h1
      obtain ⟨hfs1, hf1⟩ := h1
      subst hfs1 hf1
      refine ⟨writeFile
          (writeFile fs (joinPath INTERMEDIATE_TEMPLATE_DIR r.intermediate_template_name)
            (render_template tpl (intermediateContext r)))
          (joinPath INTERMEDIATE_TEMPLATE_DIR r.intermediate_template_name)
          (render_template tpl (intermediateContext r)), ?_, ?_⟩
      · simp only [post_generate_intermediate, generate_intermediate_template, hval]
        rw [show readFile
            (writeFile fs (joinPath INTERMEDIATE_TEMPLATE_DIR r.intermediate_template_name)
              (render_template tpl (intermediateContext r)))
            (joinPath BASE_TEMPLATE_DIR r.base_template_name)
            = some tpl by
          simp only [readFile, writeFile]
          rw [lookup_cons_of_ne _ _ _ _ hne]
          exact hread]
      · simp [readFile, writeFile, lookup_cons_self]

/-- Closed witness for C9: the amended theorem applied to the fixture
request, whose base and intermediate paths do not alias; re-running after
the first successful run writes byte-identical content. -/
theorem C9_witness :
    ∃ fs2,
      post_generate_intermediate cexRequest
          (writeFile cexFS (joinPath INTERMEDIATE_TEMPLATE_DIR "inter.html") "Du  au ")
        = .ok (fs2, "inter.html")
      ∧ readFile fs2 (joinPath INTERMEDIATE_TEMPLATE_DIR "inter.html")
          = readFile
              (writeFile cexFS (joinPath INTERMEDIATE_TEMPLATE_DIR "inter.html")
                "Du  au ")
              (joinPath INTERMEDIATE_TEMPLATE_DIR "inter.html") :=
  C9_generate_intermediate_idempotent cexRequest cexFS
    (writeFile cexFS (joinPath INTERMEDIATE_TEMPLATE_DIR "inter.html") "Du  au ")
    "inter.html" (by decide) (by decide)

end JinjaApp
